import Mathlib

set_option linter.unusedVariables false

/-!
# Shallow embedding of the `config-file` repository

This file embeds the two source files of the repository,
`config_file/parsers/json_parser.py` and `config_file/config_file.py`,
as executable Lean definitions, and proves or refutes the specification's
claims about them.

Conventions:
* Python/JSON trees are modelled by the inductive type `Json` below; the
  Python value `None` and the JSON literal `null` are both `Json.null`
  (that is exactly how `json.loads`/`json.dumps` identify them).
* Python dictionaries are modelled as insertion-ordered association lists
  `List (String × Json)` with distinct keys, matching CPython's ordered
  `dict` semantics.
* Raising an exception is modelled by the `Except` monad with error type
  `PyErr`.
* The Python standard library's `json.loads` / `json.dumps` are external
  collaborators (the spec declares low-level syntax parsing out of scope
  and assumed correct), so they appear as explicit function arguments
  `L : String → Except String Json` and `D : Json → String`.
-/

/-- A JSON / Python value tree.  Python `None` and JSON `null` are both
`Json.null`; numbers are modelled by `Int` (no claim under verification
depends on floating-point behaviour). -/
inductive Json : Type where
  | null : Json
  | bool (b : Bool) : Json
  | num (n : Int) : Json
  | str (s : String) : Json
  | arr (elems : List Json) : Json
  | obj (entries : List (String × Json)) : Json

/-- The Python exceptions the embedded code can raise.
`parsingError` is `config_file.parsers.base_parser.ParsingError` carrying
the text of the underlying syntax error; `keyError` is the builtin
`KeyError` raised by `dict` subscript access; `keyNotFound` stands for the
spec's `KeyNotFound` error class (never raised by this code);
`typeError` is the builtin `TypeError` (raised e.g. by a call with an
unexpected keyword argument); `fileNotFound` is the builtin
`FileNotFoundError`; `sameFile` is `shutil.SameFileError`. -/
inductive PyErr : Type where
  | parsingError (msg : String) : PyErr
  | keyError (key : String) : PyErr
  | keyNotFound (key : String) : PyErr
  | typeError : PyErr
  | fileNotFound (path : String) : PyErr
  | sameFile (path : String) : PyErr

/-- Python `search_item in data` for a dict `data`: membership among keys. -/
def dictContains (data : List (String × Json)) (k : String) : Bool :=
  data.any (fun kv => kv.1 == k)

/-- Python `data[key]` read on a dict: the value of the first (unique)
entry with that key, if any. -/
def dictGet (entries : List (String × Json)) (key : String) : Option Json :=
  (entries.find? (fun kv => kv.1 == key)).map (fun kv => kv.2)

/-- Python `data[key] = v` on a dict: replace in place if the key exists
(keeping its insertion position), otherwise append at the end. -/
def dictSet : List (String × Json) → String → Json → List (String × Json)
  | [], k, v => [(k, v)]
  | (k0, v0) :: rest, k, v =>
      if k0 == k then (k0, v) :: rest else (k0, v0) :: dictSet rest k v

/-- Python `del data[key]` on a dict, assuming the key exists: remove the
(unique) entry with that key. -/
def dictDel : List (String × Json) → String → List (String × Json)
  | [], _ => []
  | (k0, v0) :: rest, k =>
      if k0 == k then rest else (k0, v0) :: dictDel rest k

namespace JsonParser

/-- `JsonParser.parse` (json_parser.py lines 11-15): run `json.loads` on
`file_contents`; on a `JSONDecodeError` re-raise it wrapped as
`ParsingError(error)`.  `L` is the external `json.loads`. -/
def parse (L : String → Except String Json) (file_contents : String) :
    Except PyErr Json :=
  match L file_contents with
  | Except.ok tree => Except.ok tree
  | Except.error err => Except.error (PyErr.parsingError err)

/-- `JsonParser.get` (json_parser.py lines 17-18): the body is `pass`, so
the method ignores its arguments and returns Python `None`.  It never
raises. -/
def get (parsed_content : Json) (section_key : String) (parse_type : Bool) :
    Except PyErr Json :=
  Except.ok Json.null

/-- `JsonParser.set` (json_parser.py lines 20-21): the body is `pass`, so
the parsed content is returned unchanged and nothing is stored. -/
def set (parsed_content : Json) (section_key : String) (value : Json) : Json :=
  parsed_content

/-- `JsonParser.delete` (json_parser.py lines 23-24): the body is `pass`,
so the parsed content is returned unchanged and nothing is removed or
raised. -/
def delete (parsed_content : Json) (section_key : String) : Json :=
  parsed_content

/-- `JsonParser.stringify` (json_parser.py lines 26-27):
`json.dumps(self.parsed_content)`.  `D` is the external `json.dumps`. -/
def stringify (D : Json → String) (parsed_content : Json) : String :=
  D parsed_content

/-- The loop of `JsonParser._search` (json_parser.py lines 32-43) over the
remaining items of `data`.  For each `(key, value)` item: if `search_item`
is a key of the whole dict `data`, return `True`; else if `value` is not a
dict, continue; else if `search_item` is a key of `value`, return `True`;
else Python calls `self._search(value, search_item)` *and discards the
returned value* (line 41 has no `return`), so that call has no effect on
the result and is omitted here; after the loop, return `False`. -/
def searchGo (data : List (String × Json)) (search_item : String) :
    List (String × Json) → Bool
  | [] => false
  | (_, value) :: rest =>
      if dictContains data search_item then true
      else
        match value with
        | Json.obj sub =>
            if dictContains sub search_item then true
            else searchGo data search_item rest
        | _ => searchGo data search_item rest

/-- `JsonParser._search` (json_parser.py lines 32-43): iterate over
`data.items()` via `searchGo`, starting from the full dict. -/
def search (data : List (String × Json)) (search_item : String) : Bool :=
  searchGo data search_item data

/-- `JsonParser.has` (json_parser.py lines 29-30):
`self._search(self.parsed_content, search_key)`.  Note the signature takes
only `search_key` — there is no `wild` parameter.  `none` models the
`AttributeError` Python would raise iterating a non-dict root; every
realistic parsed configuration root is a mapping (spec section 3). -/
def has (parsed_content : Json) (search_key : String) : Option Bool :=
  match parsed_content with
  | Json.obj entries => some (search entries search_key)
  | _ => none

end JsonParser

/-- The `default` argument of `ConfigFile.get` (config_file.py line 51):
either the caller supplied a value, or the parameter keeps its default,
the sentinel instance `Default(None)` from `config_file.utils`. -/
inductive DefaultArg : Type where
  | unset : DefaultArg
  | given (v : Json) : DefaultArg

/-- A Python object as returned by `ConfigFile.get`: either an embedded
JSON/Python value, or the `Default(None)` sentinel instance itself (which
line 78 would hand back verbatim if the dead except-branch ever ran). -/
inductive PyObj : Type where
  | json (j : Json) : PyObj
  | defaultNone : PyObj

/-- The object the `default` parameter is bound to. -/
def DefaultArg.toObj : DefaultArg → PyObj
  | DefaultArg.unset => PyObj.defaultNone
  | DefaultArg.given v => PyObj.json v

/-- config_file.py line 77: `default is not type(Default)`.  `type(Default)`
is the metaclass `type`, and no value a caller can pass as `default` is the
builtin `type` object, so the test is `True` for every argument, the unset
sentinel included. -/
def default_is_not_type (d : DefaultArg) : Bool :=
  true

namespace ConfigFile

/-- `ConfigFile.__getitem__` (config_file.py lines 37-38):
`self.__parser.parsed_content[key]` — a plain dict subscript on the
top-level mapping with the verbatim key string; an absent key raises the
builtin `KeyError`, and a non-dict root raises `TypeError`. -/
def getitem (parsed_content : Json) (key : String) : Except PyErr Json :=
  match parsed_content with
  | Json.obj entries =>
      match dictGet entries key with
      | some v => Except.ok v
      | none => Except.error (PyErr.keyError key)
  | _ => Except.error PyErr.typeError

/-- `ConfigFile.__setitem__` (config_file.py lines 40-41):
`self.__parser.parsed_content[key] = value`. -/
def setitem (parsed_content : Json) (key : String) (value : Json) :
    Except PyErr Json :=
  match parsed_content with
  | Json.obj entries => Except.ok (Json.obj (dictSet entries key value))
  | _ => Except.error PyErr.typeError

/-- `ConfigFile.__delitem__` (config_file.py lines 43-44):
`del self.__parser.parsed_content[key]`. -/
def delitem (parsed_content : Json) (key : String) : Except PyErr Json :=
  match parsed_content with
  | Json.obj entries =>
      if dictContains entries key then Except.ok (Json.obj (dictDel entries key))
      else Except.error (PyErr.keyError key)
  | _ => Except.error PyErr.typeError

/-- `ConfigFile.get` (config_file.py lines 46-85).  `parse_value` is the
coercion engine from `config_file/parse_value.py` (external to the two
embedded files) and `return_type` the optional cast callable of line 85;
the claims under verification fix `parse_types = false` and
`return_type = None`.  Line 75 calls `self.__parser.get(key)`, so the
parser's `parse_type` parameter keeps its default `True`.  The
`except ParsingError` branch of lines 76-80 is translated faithfully even
though `JsonParser.get` never raises. -/
def get (parse_value : PyObj → PyObj) (return_type : Option (PyObj → PyObj))
    (parsed_content : Json) (key : String) (parse_types : Bool)
    (default : DefaultArg) : Except PyErr PyObj :=
  let attempt : Except PyErr PyObj :=
    match JsonParser.get parsed_content key true with
    | Except.ok v => Except.ok (PyObj.json v)
    | Except.error (PyErr.parsingError e) =>
        if default_is_not_type default then Except.ok default.toObj
        else Except.error (PyErr.parsingError e)
    | Except.error e => Except.error e
  match attempt with
  | Except.error e => Except.error e
  | Except.ok kv =>
      let kv := if parse_types then parse_value kv else kv
      match return_type with
      | some cast => Except.ok (cast kv)
      | none => Except.ok kv

/-- `ConfigFile.set` (config_file.py lines 87-104): delegates to
`self.__parser.set(key, value)`. -/
def set (parsed_content : Json) (key : String) (value : Json) : Json :=
  JsonParser.set parsed_content key value

/-- `ConfigFile.delete` (config_file.py lines 106-116): delegates to
`self.__parser.delete(key)`.  The return type has no error channel because
`JsonParser.delete` (a `pass` body) cannot raise. -/
def delete (parsed_content : Json) (key : String) : Json :=
  JsonParser.delete parsed_content key

/-- `ConfigFile.has` (config_file.py lines 127-148): line 148 calls
`self.__parser.has(key, wild=wild)`, but `JsonParser.has` (json_parser.py
line 29) accepts no `wild` parameter, so the call raises `TypeError`
before any search happens, for either value of `wild`. -/
def has (parsed_content : Json) (key : String) (wild : Bool) :
    Except PyErr Bool :=
  Except.error PyErr.typeError

end ConfigFile

/-- Modelled from the spec: the Key Path Resolver in Read mode (spec
section 4.1) — split the dotted key, walk Mapping entries segment by
segment, fail if a segment is absent or a non-Mapping is hit with
segments remaining.  The repository's resolver (spec'd to live in the
adapters) is stubbed out in `src/`, so this reference definition follows
the spec's words; it is used only to compare the code's behaviour with
what the claims say about full-path resolution. -/
def resolveRead : Json → List String → Option Json
  | v, [] => some v
  | Json.obj entries, seg :: rest =>
      match dictGet entries seg with
      | some v => resolveRead v rest
      | none => none
  | _, _ :: _ => none

/-- Split a list of characters on `.`, accumulating the current segment in
reverse.  A structurally recursive equivalent of `String.splitOn "."`,
chosen so that concrete instances evaluate inside the kernel. -/
def splitSegsAux : List Char → List Char → List String
  | [], acc => [String.mk acc.reverse]
  | c :: rest, acc =>
      if c == '.' then String.mk acc.reverse :: splitSegsAux rest []
      else splitSegsAux rest (c :: acc)

/-- Split a dotted string into its segments (`String.splitOn "."`). -/
def splitDots (s : String) : List String :=
  splitSegsAux s.data []

/-- Join segments back with `.` between them (`String.intercalate "."`). -/
def joinDots : List String → String
  | [] => ""
  | [s] => s
  | s :: rest => s ++ "." ++ joinDots rest

/-- Modelled from the spec: a dotted key names a path by splitting on `.`
(spec section 3, Key Path). -/
def pathResolves (tree : Json) (key : String) : Bool :=
  (resolveRead tree (splitDots key)).isSome

/-- An in-memory file system: an association list from path to file
contents, standing in for the directory `restore_original` touches. -/
abbrev FileSys : Type :=
  List (String × String)

/-- Contents of the file at `p`, if it exists. -/
def fsRead (fs : FileSys) (p : String) : Option String :=
  (fs.find? (fun e => e.1 == p)).map (fun e => e.2)

/-- Python `Path.exists()` / `ConfigFilePath.exists()`. -/
def fsExists (fs : FileSys) (p : String) : Bool :=
  (fsRead fs p).isSome

/-- `Path.unlink()`: remove the entry for `p`. -/
def fsRemove (fs : FileSys) (p : String) : FileSys :=
  fs.filter (fun e => e.1 != p)

/-- Write `c` to path `p` (used to model `shutil.copyfile`'s destination
write): any previous entry is dropped and the new one appended. -/
def fsWrite (fs : FileSys) (p : String) (c : String) : FileSys :=
  fsRemove fs p ++ [(p, c)]

/-- Modelled from the spec: `ConfigFilePath.original_path`
(config_file/config_file_path.py is not under `src/`) — the sibling
"original" file located by the fixed naming convention that inserts
`original` before the extension, e.g. `config.json` ->
`config.original.json` (spec section 6; docstring of
`ConfigFile.restore_original`, config_file.py lines 162-165). -/
def originalPath (p : String) : String :=
  match (splitDots p).reverse with
  | [] => p
  | ext :: revStem => joinDots (revStem.reverse ++ ["original", ext])

/-- `ConfigFile.restore_original` (config_file.py lines 150-186) over the
in-memory file system.  `fs` is the directory state, `selfPath` is
`self.__path`, `supplied` the `original_file_path` argument (Python treats
`None` — and only falsy values — as "not provided").  On success it
returns the new file system together with the raw text passed to
`self.__parser.reset_internal_contents` (line 186), which is the restored
file's contents.

Translated line by line:
* line 176: `if original_file_path and not ConfigFilePath(original_file_path).exists():`
  raise `FileNotFoundError` — only when a supplied path does not exist;
* lines 180-182 (the `else` branch, which also runs when a supplied path
  *does* exist): rebind `original_file_path` to the calculated
  `self.__path.original_path` and `validate()` it.  `validate` is
  modelled from the spec/docstring: it raises `FileNotFoundError` when
  the path does not exist (config_file.py lines 21-24);
* line 184: `self.__path.unlink()` — raises `FileNotFoundError` if the
  current file is absent;
* line 185: `copyfile(original_file_path, self.__path)` — raises
  `SameFileError` when source and destination are the same path, else
  writes the source's bytes over the destination;
* line 186: `reset_internal_contents(self.__path.contents)`. -/
def restore_original (fs : FileSys) (selfPath : String)
    (supplied : Option String) : Except PyErr (FileSys × String) :=
  let chosen : Except PyErr String :=
    match supplied with
    | some p =>
        if !(fsExists fs p) then Except.error (PyErr.fileNotFound p)
        else
          let op := originalPath selfPath
          if fsExists fs op then Except.ok op
          else Except.error (PyErr.fileNotFound op)
    | none =>
        let op := originalPath selfPath
        if fsExists fs op then Except.ok op
        else Except.error (PyErr.fileNotFound op)
  match chosen with
  | Except.error e => Except.error e
  | Except.ok src =>
      if !(fsExists fs selfPath) then Except.error (PyErr.fileNotFound selfPath)
      else if src == selfPath then Except.error (PyErr.sameFile src)
      else
        match fsRead fs src with
        | none => Except.error (PyErr.fileNotFound src)
        | some bytes =>
            Except.ok (fsWrite (fsRemove fs selfPath) selfPath bytes, bytes)

/-- A concrete stand-in for `json.loads` over a one-document language,
used only to instantiate the parametric theorems about
`JsonParser.parse` at a closed input. -/
def toyLoads : String → Except String Json :=
  fun s => if s == "null" then Except.ok Json.null else Except.error "Expecting value"

/-- A concrete stand-in for `json.dumps` matching `toyLoads`. -/
def toyDumps : Json → String :=
  fun _ => "null"

/-- Absence of a key in `dictGet` is the same as `dictContains` being
false (both scan for the first entry whose key matches). -/
theorem dictGet_none_iff_not_contains (entries : List (String × Json))
    (key : String) :
    dictGet entries key = none ↔ dictContains entries key = false := by
  induction entries with
  | nil => simp [dictGet, dictContains]
  | cons kv rest ih =>
      cases hkv : (kv.1 == key) <;>
        simp [dictGet, dictContains, List.find?_cons, hkv]

/-- C1: the spec claims `set(k, v)` followed by `get(k)` (with
`parse_types` false) returns a value equal to `v`.  The code violates it:
`JsonParser.set` stores nothing and `JsonParser.get` always returns
Python `None`, so on the empty tree, after `set("a", 5)`, `get("a")`
evaluates to `None`, which differs from `5`. -/
theorem set_then_get_returns_none :
    ConfigFile.get id none
        (ConfigFile.set (Json.obj []) "a" (Json.num 5)) "a" false DefaultArg.unset
      = Except.ok (PyObj.json Json.null) ∧
    PyObj.json Json.null ≠ PyObj.json (Json.num 5) := by
  refine ⟨rfl, ?_⟩
  intro h
  injection h with h1
  exact Json.noConfusion h1

/-- C2: the spec claims `get("absent.key", default=7) = 7` and that
`get("absent.key")` without a default fails with `KeyNotFound`.  The code
violates both: `JsonParser.get` never raises (it returns `None`), the
facade's handler catches `ParsingError` rather than `KeyNotFound`, and so
`get` returns `None` with or without a supplied default. -/
theorem get_absent_key_ignores_default :
    ConfigFile.get id none (Json.obj []) "absent.key" false
        (DefaultArg.given (Json.num 7))
      = Except.ok (PyObj.json Json.null) ∧
    ConfigFile.get id none (Json.obj []) "absent.key" false DefaultArg.unset
      = Except.ok (PyObj.json Json.null) ∧
    PyObj.json Json.null ≠ PyObj.json (Json.num 7) := by
  refine ⟨rfl, rfl, ?_⟩
  intro h
  injection h with h1
  exact Json.noConfusion h1

/-- C3: the spec claims that on the tree `{a: {b: {c: 1}}}` a wildcard
existence check for `"c"` is true.  The code violates it twice over: the
facade call `ConfigFile.has(key, wild=True)` raises `TypeError` because
`JsonParser.has` accepts no `wild` argument, and the underlying
`JsonParser._search` discards the value of its recursive call, so even a
direct parser-level search for `"c"` returns `False` (the key sits at
depth 3 and only depths 1-2 are effectively inspected). -/
theorem wild_search_misses_nested_key :
    JsonParser.has
        (Json.obj [("a", Json.obj [("b", Json.obj [("c", Json.num 1)])])]) "c"
      = some false ∧
    ConfigFile.has
        (Json.obj [("a", Json.obj [("b", Json.obj [("c", Json.num 1)])])]) "c" true
      = Except.error PyErr.typeError :=
  ⟨rfl, rfl⟩

/-- C4: the spec claims `has(k, wild=false)` is true exactly when the full
dotted path resolves.  The code violates it: `JsonParser.has` ignores the
notion of a path entirely and runs the same fuzzy `_search` regardless of
`wild` — on `{a: {b: 1}}` it reports `"b"` as present (found at depth 2)
although the path `b` does not resolve at the top level, and reports
`"a.b"` as absent although that path does resolve; moreover the facade
call `ConfigFile.has(key, wild=False)` raises `TypeError` because
`JsonParser.has` accepts no `wild` argument. -/
theorem unwild_has_ignores_path_resolution :
    JsonParser.has (Json.obj [("a", Json.obj [("b", Json.num 1)])]) "b"
      = some true ∧
    pathResolves (Json.obj [("a", Json.obj [("b", Json.num 1)])]) "b" = false ∧
    pathResolves (Json.obj [("a", Json.obj [("b", Json.num 1)])]) "a.b" = true ∧
    JsonParser.has (Json.obj [("a", Json.obj [("b", Json.num 1)])]) "a.b"
      = some false ∧
    ConfigFile.has (Json.obj [("a", Json.obj [("b", Json.num 1)])]) "b" false
      = Except.error PyErr.typeError :=
  ⟨rfl, rfl, rfl, rfl, rfl⟩

/-- C5: the spec claims `delete(key)` removes a resolving entry and fails
with `KeyNotFound` otherwise.  The code violates both halves:
`JsonParser.delete` has a `pass` body, so `ConfigFile.delete` leaves the
tree `{a: 1}` unchanged when asked to delete the existing key `"a"`, and
its return type has no error channel at all — deleting a missing key
raises nothing. -/
theorem delete_is_a_no_op :
    ConfigFile.delete (Json.obj [("a", Json.num 1)]) "a"
      = Json.obj [("a", Json.num 1)] ∧
    ConfigFile.delete (Json.obj []) "missing" = Json.obj [] :=
  ⟨rfl, rfl⟩

/-- C6: the spec claims `restore_original` restores from the explicitly
supplied path when one is given.  The code violates it: line 176 only
checks a supplied path for existence, and the `else` branch of lines
180-182 then replaces it with the calculated sibling path, so with
current file `config.json`, sibling `config.original.json` holding
`SIBLING` and supplied file `backup.json` holding `SUPPLIED`, the restore
copies `SIBLING` (not `SUPPLIED`) over `config.json` and hands `SIBLING`
to `reset_internal_contents`; and when the sibling is missing the call
fails with `FileNotFoundError` about the sibling even though the supplied
file exists. -/
theorem restore_original_ignores_supplied_path :
    restore_original
        [("config.json", "CURRENT"), ("config.original.json", "SIBLING"),
          ("backup.json", "SUPPLIED")]
        "config.json" (some "backup.json")
      = Except.ok
          ([("config.original.json", "SIBLING"), ("backup.json", "SUPPLIED"),
            ("config.json", "SIBLING")], "SIBLING") ∧
    restore_original [("config.json", "CURRENT"), ("backup.json", "SUPPLIED")]
        "config.json" (some "backup.json")
      = Except.error (PyErr.fileNotFound "config.original.json") :=
  ⟨rfl, rfl⟩

/-- C7: `JsonParser.parse` returns the parsed tree exactly when
`json.loads` succeeds on the raw text (the format's notion of
well-formedness), and fails with a `ParsingError` carrying the underlying
syntax error exactly when `json.loads` raises one. -/
theorem parse_wraps_syntax_errors (L : String → Except String Json)
    (raw : String) :
    (∀ t, L raw = Except.ok t → JsonParser.parse L raw = Except.ok t) ∧
    (∀ e, L raw = Except.error e →
      JsonParser.parse L raw = Except.error (PyErr.parsingError e)) ∧
    (JsonParser.parse L raw).isOk = (L raw).isOk := by
  refine ⟨?_, ?_, ?_⟩
  · intro t ht
    simp [JsonParser.parse, ht]
  · intro e he
    simp [JsonParser.parse, he]
  · cases h : L raw <;> simp only [JsonParser.parse, h] <;> rfl

/-- Witness for C7 at a concrete malformed input of the toy language. -/
theorem parse_wraps_syntax_errors_witness :
    JsonParser.parse toyLoads "oops"
      = Except.error (PyErr.parsingError "Expecting value") :=
  (parse_wraps_syntax_errors toyLoads "oops").2.1 "Expecting value" rfl

/-- C8: if loading `raw` produced the tree `t` (which the parser stores as
its `parsed_content`) and the external `json` library round-trips `t`
(`loads (dumps t) = t`, the correctness the spec assumes of it), then
`parse(stringify(parse(raw)))` equals `parse(raw)`. -/
theorem parse_stringify_parse_round_trip (L : String → Except String Json)
    (D : Json → String) (raw : String) (t : Json)
    (hload : JsonParser.parse L raw = Except.ok t)
    (hlib : L (D t) = Except.ok t) :
    JsonParser.parse L (JsonParser.stringify D t) = JsonParser.parse L raw := by
  have h1 : JsonParser.parse L (D t) = Except.ok t := by
    simp [JsonParser.parse, hlib]
  calc JsonParser.parse L (JsonParser.stringify D t)
      = JsonParser.parse L (D t) := rfl
    _ = Except.ok t := h1
    _ = JsonParser.parse L raw := hload.symm

/-- Witness for C8 at a concrete well-formed input of the toy language. -/
theorem parse_stringify_parse_round_trip_witness :
    JsonParser.parse toyLoads (JsonParser.stringify toyDumps Json.null)
      = JsonParser.parse toyLoads "null" :=
  parse_stringify_parse_round_trip toyLoads toyDumps "null" Json.null rfl rfl

/-- C9: for every parsed tree, key and value, the JSON adapter's `get`
returns Python `None` without looking anything up, and its `set` and
`delete` leave the tree unchanged — all three bodies are `pass`. -/
theorem jsonParser_get_set_delete_are_stubs (parsed_content : Json)
    (section_key : String) (parse_type : Bool) (value : Json) :
    JsonParser.get parsed_content section_key parse_type
      = Except.ok Json.null ∧
    JsonParser.set parsed_content section_key value = parsed_content ∧
    JsonParser.delete parsed_content section_key = parsed_content :=
  ⟨rfl, rfl, rfl⟩

/-- C10: the facade's subscript operators act on the top-level entries of
the parsed tree with the verbatim key string: an absent key makes read
and delete fail with the builtin `KeyError` (never the spec's
`KeyNotFound`), a present key is read to its top-level value, assignment
rewrites the top-level entry, and a dotted key such as `"a.b"` is *not*
split — on `{a: {b: 1}}` the subscript read of `"a.b"` raises `KeyError`
even though the dotted path resolves. -/
theorem subscript_is_verbatim_top_level_access
    (entries : List (String × Json)) (key : String) :
    (dictGet entries key = none →
      ConfigFile.getitem (Json.obj entries) key
          = Except.error (PyErr.keyError key) ∧
      ConfigFile.delitem (Json.obj entries) key
          = Except.error (PyErr.keyError key)) ∧
    (∀ v, dictGet entries key = some v →
      ConfigFile.getitem (Json.obj entries) key = Except.ok v) ∧
    (∀ v, ConfigFile.setitem (Json.obj entries) key v
        = Except.ok (Json.obj (dictSet entries key v))) ∧
    (∀ k2, ConfigFile.getitem (Json.obj entries) key
        ≠ Except.error (PyErr.keyNotFound k2)) ∧
    (ConfigFile.getitem (Json.obj [("a", Json.obj [("b", Json.num 1)])]) "a.b"
        = Except.error (PyErr.keyError "a.b") ∧
      pathResolves (Json.obj [("a", Json.obj [("b", Json.num 1)])]) "a.b"
        = true) := by
  refine ⟨?_, ?_, ?_, ?_, rfl, rfl⟩
  · intro h
    have hc := (dictGet_none_iff_not_contains entries key).mp h
    exact ⟨by simp [ConfigFile.getitem, h], by simp [ConfigFile.delitem, hc]⟩
  · intro v h
    simp [ConfigFile.getitem, h]
  · intro v
    rfl
  · intro k2
    cases hd : dictGet entries key <;> simp [ConfigFile.getitem, hd]

/-- Witness for C10: on the tree with the single top-level key `x`, the
absent key `y` makes subscript read and delete fail with `KeyError`. -/
theorem subscript_is_verbatim_top_level_access_witness :
    ConfigFile.getitem (Json.obj [("x", Json.num 1)]) "y"
      = Except.error (PyErr.keyError "y") ∧
    ConfigFile.delitem (Json.obj [("x", Json.num 1)]) "y"
      = Except.error (PyErr.keyError "y") :=
  (subscript_is_verbatim_top_level_access [("x", Json.num 1)] "y").1 rfl
